import Mathlib

/-!
Verification of the request-validation-and-persistence pipeline of the
serverless real-estate listing service (src/src/lambda/index.js).

The source file contains two handler variants separated in the repository:
the first sanitizes every string field with the external xss library before
persisting, the second persists the raw request body.  Both are embedded
below as namespaces V1 and V2 over a common data model.

JavaScript request-body values are embedded as a small inductive type
covering the cases the handlers distinguish: strings, numbers, booleans,
null and undefined.  The DynamoDB table is embedded as a list of records,
with the conditional put / update / delete expressions of the source
modelled as existence-guarded list operations keyed on PropertyID.
-/

namespace RealEstate

/-- A JavaScript value as the handlers observe it: the validation code only
distinguishes strings, numbers and falsiness, so these constructors cover
the behaviour of the source. -/
inductive JSVal where
  | vStr (s : String)
  | vNum (n : Int)
  | vBool (b : Bool)
  | vNull
  | vUndefined
deriving DecidableEq, Repr

open JSVal

/-- JavaScript truthiness as used by the handlers: undefined, null, false,
0 and the empty string are falsy. -/
def truthy : JSVal → Bool
  | vStr s => decide (s ≠ "")
  | vNum n => decide (n ≠ 0)
  | vBool b => b
  | vNull => false
  | vUndefined => false

/-- typeof v === "string" -/
def isString : JSVal → Bool
  | vStr _ => true
  | _ => false

/-- typeof v === "number" -/
def isNumber : JSVal → Bool
  | vNum _ => true
  | _ => false

/-- v < 0 for a numeric value (only consulted after the typeof check). -/
def numNeg : JSVal → Bool
  | vNum n => decide (n < 0)
  | _ => false

/-- The six attributes a listing request or stored row carries.  A field
missing from a request body reads as vUndefined, exactly as property access
on a JS object does. -/
structure PropertyData where
  PropertyID : JSVal
  Title : JSVal
  Description : JSVal
  PropertyType : JSVal
  Price : JSVal
  PropertyLocation : JSVal
deriving DecidableEq, Repr

/-- validateProperty from index.js: the fixed sequence of checks, each
returning the corresponding error message, null (none) when all pass. -/
def validateProperty (data : PropertyData) : Option String :=
  if !truthy data.PropertyID || !isString data.PropertyID then some "Invalid PropertyID"
  else if !truthy data.Title || !isString data.Title then some "Invalid Title"
  else if !truthy data.Description || !isString data.Description then some "Invalid Description"
  else if !(decide (data.PropertyType = vStr "Rent") || decide (data.PropertyType = vStr "Sale")) then
    some "Invalid PropertyType (Must be \x27Rent\x27 or \x27Sale\x27)"
  else if !isNumber data.Price || numNeg data.Price then some "Invalid Price"
  else if !truthy data.PropertyLocation || !isString data.PropertyLocation then some "Invalid PropertyLocation"
  else none

/-- Character-level markup escaping: the markup delimiters are replaced by
their HTML entities, every other character is kept. -/
def escapeChars : List Char → List Char
  | [] => []
  | c :: rest =>
      (if c = '<' then ['&', 'l', 't', ';']
       else if c = '>' then ['&', 'g', 't', ';']
       else [c]) ++ escapeChars rest

def escapeMarkup (s : String) : String := String.mk (escapeChars s.data)

/-- A string contains (potentially executable) markup when it contains the
tag-opening delimiter. -/
def hasMarkup (s : String) : Bool := s.data.any (fun c => decide (c = '<'))

/-- Modelled from the spec: the xss npm library applied by sanitizeInput is
an external dependency, not part of this repository.  The spec describes it
as neutralizing markup/script content in free text; it is modelled here as
escaping the markup delimiters.  The library coerces its argument with
(html or empty string).toString(), so falsy non-string input yields the
empty string and truthy non-string input its string form. -/
def xss (v : JSVal) : String :=
  match v with
  | vStr s => escapeMarkup s
  | vNum n => if n = 0 then "" else toString n
  | vBool b => if b then "true" else ""
  | vNull => ""
  | vUndefined => ""

/-- sanitizeInput from index.js: xss over every string attribute, Price
passed through unchanged. -/
def sanitizeInput (data : PropertyData) : PropertyData :=
  { PropertyID := vStr (xss data.PropertyID),
    Title := vStr (xss data.Title),
    Description := vStr (xss data.Description),
    PropertyType := vStr (xss data.PropertyType),
    Price := data.Price,
    PropertyLocation := vStr (xss data.PropertyLocation) }

/-- The DynamoDB table: one row per listing, keyed by the PropertyID
attribute. -/
abbrev Store := List PropertyData

/-- GetCommand with Key PropertyID = id. -/
def getItem (store : Store) (id : String) : Option PropertyData :=
  store.find? (fun it => decide (it.PropertyID = vStr id))

/-- PutCommand with ConditionExpression attribute_not_exists(PropertyID):
rejected (none) when a row with the same key already exists. -/
def condPut (store : Store) (item : PropertyData) : Option Store :=
  match store.find? (fun it => decide (it.PropertyID = item.PropertyID)) with
  | some _ => none
  | none => some (store ++ [item])

/-- The UpdateExpression of the put handler: SET of exactly the five
mutable attributes, the key attribute untouched. -/
def rewriteFields (t d ty p l : JSVal) (it : PropertyData) : PropertyData :=
  { it with Title := t, Description := d, PropertyType := ty, Price := p, PropertyLocation := l }

/-- UpdateCommand with ConditionExpression attribute_exists(PropertyID):
rejected (none) when no row has the key, otherwise the row is rewritten. -/
def condUpdate (store : Store) (id : String) (t d ty p l : JSVal) : Option Store :=
  match getItem store id with
  | none => none
  | some _ =>
      some (store.map (fun it => if it.PropertyID = vStr id then rewriteFields t d ty p l it else it))

/-- DeleteCommand with ConditionExpression attribute_exists(PropertyID). -/
def condDelete (store : Store) (id : String) : Option Store :=
  match getItem store id with
  | none => none
  | some _ => some (store.filter (fun it => !decide (it.PropertyID = vStr id)))

/-- The JSON bodies the handlers produce. -/
inductive ResBody where
  | message (s : String)
  | err (s : String)
  | record (it : PropertyData)
  | records (l : List PropertyData)
deriving DecidableEq, Repr

structure Response where
  status : Nat
  body : ResBody
deriving DecidableEq, Repr

/-- The no-fields guard of the put handlers: every destructured mutable
field falsy. -/
def noUpdatableField (data : PropertyData) : Bool :=
  !truthy data.Title && !truthy data.Description && !truthy data.PropertyType
    && !truthy data.Price && !truthy data.PropertyLocation

/-- Spec-side reading of one required-field constraint: a present,
correctly typed, non-empty string. -/
def isNonEmptyString : JSVal → Bool
  | vStr s => decide (s ≠ "")
  | _ => false

/-- Spec-side reading of the claim: the first offending field of a create
request, in the fixed check order PropertyID, Title, Description,
PropertyType, Price, PropertyLocation. -/
def specFirstOffender (data : PropertyData) : Option String :=
  if !isNonEmptyString data.PropertyID then some "PropertyID"
  else if !isNonEmptyString data.Title then some "Title"
  else if !isNonEmptyString data.Description then some "Description"
  else if !(decide (data.PropertyType = vStr "Rent") || decide (data.PropertyType = vStr "Sale")) then
    some "PropertyType"
  else if !isNumber data.Price || numNeg data.Price then some "Price"
  else if !isNonEmptyString data.PropertyLocation then some "PropertyLocation"
  else none

/-- The validation message the handler emits for each offending field. -/
def validationMessage (f : String) : String :=
  if f = "PropertyType" then "Invalid PropertyType (Must be \x27Rent\x27 or \x27Sale\x27)"
  else "Invalid " ++ f

/-- Spec-side reading of a mutable field that is not supplied as non-empty:
absent, null, or the empty string. -/
def emptySupplied : JSVal → Bool
  | vUndefined => true
  | vNull => true
  | vStr s => decide (s = "")
  | _ => false

namespace V1

/-- POST /property (sanitizing variant): validate, sanitize, conditional
put; 400 on validation failure, 500 on a rejected put. -/
def postProperty (store : Store) (data : PropertyData) : Response × Store :=
  match validateProperty data with
  | some e => (⟨400, ResBody.err e⟩, store)
  | none =>
      match condPut store (sanitizeInput data) with
      | some newStore => (⟨201, ResBody.message "Property created successfully"⟩, newStore)
      | none => (⟨500, ResBody.err "Error creating property"⟩, store)

/-- GET /property/:id.  The source responds with res.status(201) on a hit,
embedded faithfully. -/
def getProperty (store : Store) (id : String) : Response :=
  match getItem store id with
  | none => ⟨404, ResBody.err "Property not found"⟩
  | some it => ⟨201, ResBody.record it⟩

/-- PUT /property/:id (sanitizing variant): sanitize the body, reject when
every mutable field is falsy, otherwise conditional update. -/
def putProperty (store : Store) (id : String) (data : PropertyData) : Response × Store :=
  let s := sanitizeInput data
  if noUpdatableField s then (⟨400, ResBody.err "No fields to update"⟩, store)
  else
    match condUpdate store id s.Title s.Description s.PropertyType s.Price s.PropertyLocation with
    | some newStore => (⟨200, ResBody.message "Property updated successfully"⟩, newStore)
    | none => (⟨500, ResBody.err "Error updating property"⟩, store)

/-- DELETE /property/:id. -/
def deleteProperty (store : Store) (id : String) : Response × Store :=
  match condDelete store id with
  | some newStore => (⟨200, ResBody.message "Property deleted successfully"⟩, newStore)
  | none => (⟨500, ResBody.err "Error deleting property"⟩, store)

/-- GET /properties: ScanCommand with Limit 10. -/
def getProperties (store : Store) : Response :=
  ⟨200, ResBody.records (store.take 10)⟩

end V1

namespace V2

/-- POST /property (second variant): validate then conditional put of the
raw request body, no sanitization. -/
def postProperty (store : Store) (data : PropertyData) : Response × Store :=
  match validateProperty data with
  | some e => (⟨400, ResBody.err e⟩, store)
  | none =>
      match condPut store data with
      | some newStore => (⟨201, ResBody.message "Property created successfully"⟩, newStore)
      | none => (⟨500, ResBody.err "Error creating property"⟩, store)

/-- PUT /property/:id (second variant): destructures the raw body. -/
def putProperty (store : Store) (id : String) (data : PropertyData) : Response × Store :=
  if noUpdatableField data then (⟨400, ResBody.err "No fields to update"⟩, store)
  else
    match condUpdate store id data.Title data.Description data.PropertyType data.Price data.PropertyLocation with
    | some newStore => (⟨200, ResBody.message "Property updated successfully"⟩, newStore)
    | none => (⟨500, ResBody.err "Error updating property"⟩, store)

end V2

/-! ## Helper lemmas about the store operations -/

theorem getItem_map_rewrite (store : Store) (id : String) (t d ty p l : JSVal) :
    getItem (store.map (fun it => if it.PropertyID = vStr id then rewriteFields t d ty p l it else it)) id
      = (getItem store id).map (rewriteFields t d ty p l) := by
  induction store with
  | nil => rfl
  | cons head tail ih =>
      by_cases h : head.PropertyID = vStr id
      · simp [getItem, List.find?, h, rewriteFields]
      · simp only [getItem, List.map, List.find?] at ih ⊢
        simp [h, ih]

theorem getItem_append_self (store : Store) (it : PropertyData) (id : String)
    (h : getItem store id = none) (hm : it.PropertyID = vStr id) :
    getItem (store ++ [it]) id = some it := by
  unfold getItem at h ⊢
  rw [List.find?_eq_none] at h
  induction store with
  | nil => simp [hm]
  | cons head tail ih =>
      have hh : ¬ (decide (head.PropertyID = vStr id) = true) :=
        h head (List.mem_cons_self _ _)
      exact (@List.find?_cons_of_neg _ (fun x : PropertyData => decide (x.PropertyID = vStr id))
          head (tail ++ [it]) hh).trans
        (ih (fun x hx => h x (List.mem_cons_of_mem _ hx)))

theorem escapeChars_no_markup (l : List Char) :
    (escapeChars l).any (fun c => decide (c = '<')) = false := by
  induction l with
  | nil => rfl
  | cons c rest ih =>
      simp only [escapeChars, List.any_append, ih, Bool.or_false]
      by_cases h1 : c = '<'
      · simp only [if_pos h1]
        decide
      · by_cases h2 : c = '>'
        · simp only [if_neg h1, if_pos h2]
          decide
        · simp [if_neg h1, if_neg h2, h1]

theorem hasMarkup_escapeMarkup (s : String) : hasMarkup (escapeMarkup s) = false :=
  escapeChars_no_markup s.data

theorem validate_eq_offender (data : PropertyData) :
    validateProperty data = (specFirstOffender data).map validationMessage := by
  have hg : ∀ v : JSVal, (!truthy v || !isString v) = !isNonEmptyString v := by
    intro v; cases v <;> simp [truthy, isString, isNonEmptyString]
  simp only [validateProperty, specFirstOffender, hg]
  split_ifs <;> rfl

/-! ## Claim theorems -/

/-- C1: a create request that passes validation but whose PropertyID (as
put, i.e. sanitized) already names a stored listing is rejected by the
conditional put with a 500 response, and the store — in particular the
listing under that PropertyID — is unchanged. -/
theorem create_duplicate_rejected (store : Store) (data it : PropertyData)
    (hv : validateProperty data = none)
    (hex : getItem store (xss data.PropertyID) = some it) :
    (V1.postProperty store data).1.status = 500 ∧
    (V1.postProperty store data).2 = store ∧
    getItem (V1.postProperty store data).2 (xss data.PropertyID) = some it := by
  have hfind : store.find? (fun j => decide (j.PropertyID = (sanitizeInput data).PropertyID)) = some it := hex
  have hput : condPut store (sanitizeInput data) = none := by
    simp [condPut, hfind]
  simp [V1.postProperty, hv, hput, hex]

theorem create_duplicate_rejected_witness :
    (V1.postProperty [⟨vStr "p1", vStr "A", vStr "d", vStr "Rent", vNum 100, vStr "X"⟩]
        ⟨vStr "p1", vStr "B", vStr "e", vStr "Sale", vNum 5, vStr "Y"⟩).1.status = 500 ∧
    (V1.postProperty [⟨vStr "p1", vStr "A", vStr "d", vStr "Rent", vNum 100, vStr "X"⟩]
        ⟨vStr "p1", vStr "B", vStr "e", vStr "Sale", vNum 5, vStr "Y"⟩).2
      = [⟨vStr "p1", vStr "A", vStr "d", vStr "Rent", vNum 100, vStr "X"⟩] ∧
    getItem (V1.postProperty [⟨vStr "p1", vStr "A", vStr "d", vStr "Rent", vNum 100, vStr "X"⟩]
        ⟨vStr "p1", vStr "B", vStr "e", vStr "Sale", vNum 5, vStr "Y"⟩).2 (xss (vStr "p1"))
      = some ⟨vStr "p1", vStr "A", vStr "d", vStr "Rent", vNum 100, vStr "X"⟩ :=
  create_duplicate_rejected _ _ _ rfl rfl

/-- C2: an update or delete naming an id with no stored listing fails (400
or 500 for update, 500 for delete), leaves the store unchanged, and in
particular still stores nothing under that id. -/
theorem update_delete_missing_id (store : Store) (id : String) (data : PropertyData)
    (hne : getItem store id = none) :
    ((V1.putProperty store id data).1.status = 400 ∨ (V1.putProperty store id data).1.status = 500) ∧
    (V1.putProperty store id data).2 = store ∧
    getItem (V1.putProperty store id data).2 id = none ∧
    (V1.deleteProperty store id).1.status = 500 ∧
    (V1.deleteProperty store id).2 = store ∧
    getItem (V1.deleteProperty store id).2 id = none := by
  have hupd : ∀ t d ty p l, condUpdate store id t d ty p l = none := by
    intro t d ty p l; simp [condUpdate, hne]
  have hdel : condDelete store id = none := by simp [condDelete, hne]
  by_cases h : noUpdatableField (sanitizeInput data)
  · simp [V1.putProperty, V1.deleteProperty, h, hdel, hne]
  · simp [V1.putProperty, V1.deleteProperty, h, hupd, hdel, hne]

theorem update_delete_missing_id_witness :
    ((V1.putProperty [] "p1" ⟨vUndefined, vStr "B", vUndefined, vUndefined, vUndefined, vUndefined⟩).1.status = 400 ∨
     (V1.putProperty [] "p1" ⟨vUndefined, vStr "B", vUndefined, vUndefined, vUndefined, vUndefined⟩).1.status = 500) ∧
    (V1.putProperty [] "p1" ⟨vUndefined, vStr "B", vUndefined, vUndefined, vUndefined, vUndefined⟩).2 = [] ∧
    getItem (V1.putProperty [] "p1" ⟨vUndefined, vStr "B", vUndefined, vUndefined, vUndefined, vUndefined⟩).2 "p1" = none ∧
    (V1.deleteProperty [] "p1").1.status = 500 ∧
    (V1.deleteProperty [] "p1").2 = [] ∧
    getItem (V1.deleteProperty [] "p1").2 "p1" = none :=
  update_delete_missing_id [] "p1" ⟨vUndefined, vStr "B", vUndefined, vUndefined, vUndefined, vUndefined⟩ rfl

/-- C3: when a create request violates a required-field constraint, the
response is a 400 validation failure whose message names the first
offending field in the fixed order PropertyID, Title, Description,
PropertyType, Price, PropertyLocation, and the store is unchanged. -/
theorem create_validation_first_offender (store : Store) (data : PropertyData) (f : String)
    (h : specFirstOffender data = some f) :
    V1.postProperty store data = (⟨400, ResBody.err (validationMessage f)⟩, store) := by
  have hv : validateProperty data = some (validationMessage f) := by
    rw [validate_eq_offender, h]; rfl
  simp [V1.postProperty, hv]

theorem create_validation_first_offender_witness :
    specFirstOffender ⟨vUndefined, vStr "A", vStr "d", vStr "Rent", vNum 5, vStr "X"⟩ = some "PropertyID" ∧
    V1.postProperty [] ⟨vUndefined, vStr "A", vStr "d", vStr "Rent", vNum 5, vStr "X"⟩
      = (⟨400, ResBody.err (validationMessage "PropertyID")⟩, []) :=
  ⟨rfl, create_validation_first_offender [] ⟨vUndefined, vStr "A", vStr "d", vStr "Rent", vNum 5, vStr "X"⟩ "PropertyID" rfl⟩

/-- C4 (amended): in the sanitizing handler variant, a create request that
passes validation and whose (sanitized) id is free persists a record whose
five string attributes are exactly the sanitized images of the submitted
values, and none of them contains markup.  (The second handler variant
persists the raw body; see the counterexample.) -/
theorem create_persists_sanitized_fields (store : Store) (data : PropertyData)
    (pid t d ty l : String)
    (hpid : data.PropertyID = vStr pid) (ht : data.Title = vStr t)
    (hd : data.Description = vStr d) (hty : data.PropertyType = vStr ty)
    (hl : data.PropertyLocation = vStr l)
    (hv : validateProperty data = none)
    (hfree : getItem store (escapeMarkup pid) = none) :
    (V1.postProperty store data).1.status = 201 ∧
    getItem (V1.postProperty store data).2 (escapeMarkup pid)
      = some ⟨vStr (escapeMarkup pid), vStr (escapeMarkup t), vStr (escapeMarkup d),
              vStr (escapeMarkup ty), data.Price, vStr (escapeMarkup l)⟩ ∧
    hasMarkup (escapeMarkup pid) = false ∧ hasMarkup (escapeMarkup t) = false ∧
    hasMarkup (escapeMarkup d) = false ∧ hasMarkup (escapeMarkup ty) = false ∧
    hasMarkup (escapeMarkup l) = false := by
  have hsan : sanitizeInput data
      = ⟨vStr (escapeMarkup pid), vStr (escapeMarkup t), vStr (escapeMarkup d),
         vStr (escapeMarkup ty), data.Price, vStr (escapeMarkup l)⟩ := by
    simp [sanitizeInput, hpid, ht, hd, hty, hl, xss]
  have hfind : store.find? (fun j => decide (j.PropertyID = vStr (escapeMarkup pid))) = none := hfree
  have hput : condPut store (sanitizeInput data) = some (store ++ [sanitizeInput data]) := by
    rw [hsan]
    simp [condPut, hfind]
  refine ⟨?_, ?_, hasMarkup_escapeMarkup pid, hasMarkup_escapeMarkup t, hasMarkup_escapeMarkup d,
      hasMarkup_escapeMarkup ty, hasMarkup_escapeMarkup l⟩
  · simp [V1.postProperty, hv, hput]
  · simp only [V1.postProperty, hv, hput]
    rw [hsan]
    exact getItem_append_self store _ _ hfree rfl

theorem create_persists_sanitized_fields_witness :
    (V1.postProperty [] ⟨vStr "p1", vStr "<b>A</b>", vStr "d", vStr "Rent", vNum 5, vStr "X"⟩).1.status = 201 ∧
    getItem (V1.postProperty [] ⟨vStr "p1", vStr "<b>A</b>", vStr "d", vStr "Rent", vNum 5, vStr "X"⟩).2
        (escapeMarkup "p1")
      = some ⟨vStr (escapeMarkup "p1"), vStr (escapeMarkup "<b>A</b>"), vStr (escapeMarkup "d"),
              vStr (escapeMarkup "Rent"), vNum 5, vStr (escapeMarkup "X")⟩ ∧
    hasMarkup (escapeMarkup "p1") = false ∧ hasMarkup (escapeMarkup "<b>A</b>") = false ∧
    hasMarkup (escapeMarkup "d") = false ∧ hasMarkup (escapeMarkup "Rent") = false ∧
    hasMarkup (escapeMarkup "X") = false :=
  create_persists_sanitized_fields [] ⟨vStr "p1", vStr "<b>A</b>", vStr "d", vStr "Rent", vNum 5, vStr "X"⟩
    "p1" "<b>A</b>" "d" "Rent" "X" rfl rfl rfl rfl rfl rfl rfl

/-- C4 counterexample: the second handler variant persists the raw request
body, so a validated create whose Title carries a script tag is accepted
with 201 and the stored, re-read Title still contains the markup. -/
theorem create_sanitization_counterexample :
    validateProperty ⟨vStr "p9", vStr "<script>alert(1)</script>", vStr "d", vStr "Rent", vNum 5, vStr "X"⟩ = none ∧
    (V2.postProperty [] ⟨vStr "p9", vStr "<script>alert(1)</script>", vStr "d", vStr "Rent", vNum 5, vStr "X"⟩).1.status = 201 ∧
    getItem (V2.postProperty [] ⟨vStr "p9", vStr "<script>alert(1)</script>", vStr "d", vStr "Rent", vNum 5, vStr "X"⟩).2 "p9"
      = some ⟨vStr "p9", vStr "<script>alert(1)</script>", vStr "d", vStr "Rent", vNum 5, vStr "X"⟩ ∧
    hasMarkup "<script>alert(1)</script>" = true := by
  refine ⟨rfl, rfl, rfl, rfl⟩

/-- C5: reading a stored id returns the stored record as the body, but with
HTTP status 201, not the specified 200; a missing id yields 404.  This
evaluates the read handler at a concrete store to exhibit the divergence. -/
theorem read_status_divergence :
    V1.getProperty [⟨vStr "p1", vStr "A", vStr "d", vStr "Rent", vNum 100, vStr "X"⟩] "p1"
      = ⟨201, ResBody.record ⟨vStr "p1", vStr "A", vStr "d", vStr "Rent", vNum 100, vStr "X"⟩⟩ ∧
    V1.getProperty [] "p1" = ⟨404, ResBody.err "Property not found"⟩ := by
  constructor <;> rfl

/-- C6: an accepted update on an existing id rewrites exactly the five
mutable fields of the stored row to the (sanitized) supplied values —
absent text fields becoming the empty string and an absent Price becoming
undefined — while the PropertyID field is left unchanged. -/
theorem update_rewrites_mutable_fields (store : Store) (id : String) (data old : PropertyData)
    (hex : getItem store id = some old)
    (hacc : noUpdatableField (sanitizeInput data) = false) :
    (V1.putProperty store id data).1.status = 200 ∧
    getItem (V1.putProperty store id data).2 id
      = some ⟨old.PropertyID, (sanitizeInput data).Title, (sanitizeInput data).Description,
              (sanitizeInput data).PropertyType, data.Price, (sanitizeInput data).PropertyLocation⟩ := by
  have hupd : condUpdate store id (sanitizeInput data).Title (sanitizeInput data).Description
      (sanitizeInput data).PropertyType (sanitizeInput data).Price (sanitizeInput data).PropertyLocation
      = some (store.map (fun it => if it.PropertyID = vStr id then
          rewriteFields (sanitizeInput data).Title (sanitizeInput data).Description
            (sanitizeInput data).PropertyType (sanitizeInput data).Price
            (sanitizeInput data).PropertyLocation it else it)) := by
    simp [condUpdate, hex]
  constructor
  · simp [V1.putProperty, hacc, hupd]
  · simp only [V1.putProperty, hacc, Bool.false_eq_true, if_false, hupd]
    rw [getItem_map_rewrite, hex]
    rfl

theorem update_rewrites_mutable_fields_witness :
    (V1.putProperty [⟨vStr "p1", vStr "A", vStr "d", vStr "Rent", vNum 100, vStr "X"⟩] "p1"
        ⟨vUndefined, vStr "B", vUndefined, vUndefined, vUndefined, vUndefined⟩).1.status = 200 ∧
    getItem (V1.putProperty [⟨vStr "p1", vStr "A", vStr "d", vStr "Rent", vNum 100, vStr "X"⟩] "p1"
        ⟨vUndefined, vStr "B", vUndefined, vUndefined, vUndefined, vUndefined⟩).2 "p1"
      = some ⟨vStr "p1",
              (sanitizeInput ⟨vUndefined, vStr "B", vUndefined, vUndefined, vUndefined, vUndefined⟩).Title,
              (sanitizeInput ⟨vUndefined, vStr "B", vUndefined, vUndefined, vUndefined, vUndefined⟩).Description,
              (sanitizeInput ⟨vUndefined, vStr "B", vUndefined, vUndefined, vUndefined, vUndefined⟩).PropertyType,
              vUndefined,
              (sanitizeInput ⟨vUndefined, vStr "B", vUndefined, vUndefined, vUndefined, vUndefined⟩).PropertyLocation⟩ :=
  update_rewrites_mutable_fields [⟨vStr "p1", vStr "A", vStr "d", vStr "Rent", vNum 100, vStr "X"⟩] "p1"
    ⟨vUndefined, vStr "B", vUndefined, vUndefined, vUndefined, vUndefined⟩
    ⟨vStr "p1", vStr "A", vStr "d", vStr "Rent", vNum 100, vStr "X"⟩ rfl rfl

/-- C7: an update request all of whose mutable fields are absent, null or
empty is rejected outright with the 400 no-fields error and the store is
not touched. -/
theorem update_no_fields_rejected (store : Store) (id : String) (data : PropertyData)
    (h : (emptySupplied data.Title && emptySupplied data.Description && emptySupplied data.PropertyType
          && emptySupplied data.Price && emptySupplied data.PropertyLocation) = true) :
    V1.putProperty store id data = (⟨400, ResBody.err "No fields to update"⟩, store) := by
  have hx : ∀ v : JSVal, emptySupplied v = true → xss v = "" := by
    intro v hv
    cases v with
    | vStr s =>
        have hs : s = "" := by simpa [emptySupplied] using hv
        simp [xss, hs, escapeMarkup, escapeChars]
    | vNum n => simp [emptySupplied] at hv
    | vBool b => simp [emptySupplied] at hv
    | vNull => rfl
    | vUndefined => rfl
  have ht : ∀ v : JSVal, emptySupplied v = true → truthy v = false := by
    intro v hv
    cases v with
    | vStr s =>
        have hs : s = "" := by simpa [emptySupplied] using hv
        simp [truthy, hs]
    | vNum n => simp [emptySupplied] at hv
    | vBool b => simp [emptySupplied] at hv
    | vNull => rfl
    | vUndefined => rfl
  have h' := h
  simp only [Bool.and_eq_true] at h'
  obtain ⟨⟨⟨⟨h1, h2⟩, h3⟩, h4⟩, h5⟩ := h'
  have htv : truthy (vStr "") = false := rfl
  have hcond : noUpdatableField (sanitizeInput data) = true := by
    simp [noUpdatableField, sanitizeInput, hx _ h1, hx _ h2, hx _ h3, hx _ h5, ht _ h4, htv]
  simp [V1.putProperty, hcond]

theorem update_no_fields_rejected_witness :
    (emptySupplied (vUndefined : JSVal) && emptySupplied (vUndefined : JSVal)
      && emptySupplied (vUndefined : JSVal) && emptySupplied (vUndefined : JSVal)
      && emptySupplied (vUndefined : JSVal)) = true ∧
    V1.putProperty [] "p1" ⟨vUndefined, vUndefined, vUndefined, vUndefined, vUndefined, vUndefined⟩
      = (⟨400, ResBody.err "No fields to update"⟩, []) :=
  ⟨rfl, update_no_fields_rejected [] "p1"
    ⟨vUndefined, vUndefined, vUndefined, vUndefined, vUndefined, vUndefined⟩ rfl⟩

/-- C8: the list operation always answers 200 with the first page of the
store, and that page never holds more than 10 records. -/
theorem list_at_most_ten (store : Store) :
    V1.getProperties store = ⟨200, ResBody.records (store.take 10)⟩ ∧
    (store.take 10).length ≤ 10 := by
  refine ⟨rfl, ?_⟩
  rw [List.length_take]
  exact Nat.min_le_left _ _

/-- C9: an update whose body carries Price 0 and no other mutable field is
rejected with the 400 "No fields to update" error in both handler
variants, because the falsy presence check treats the number 0 as absent;
the store is untouched. -/
theorem update_price_zero_rejected (store : Store) (id : String) (pid : JSVal) :
    V1.putProperty store id ⟨pid, vUndefined, vUndefined, vUndefined, vNum 0, vUndefined⟩
      = (⟨400, ResBody.err "No fields to update"⟩, store) ∧
    V2.putProperty store id ⟨pid, vUndefined, vUndefined, vUndefined, vNum 0, vUndefined⟩
      = (⟨400, ResBody.err "No fields to update"⟩, store) := by
  constructor <;> rfl

/-- C10: the update path applies no value validation: a concrete accepted
update on an existing id stores a PropertyType outside Rent/Sale together
with a negative Price, a record the create-side validator rejects. -/
theorem update_bypasses_validation :
    (V1.putProperty [⟨vStr "p1", vStr "A", vStr "d", vStr "Rent", vNum 100, vStr "X"⟩] "p1"
        ⟨vUndefined, vStr "A", vStr "d", vStr "Banana", vNum (-5), vStr "X"⟩).1.status = 200 ∧
    getItem (V1.putProperty [⟨vStr "p1", vStr "A", vStr "d", vStr "Rent", vNum 100, vStr "X"⟩] "p1"
        ⟨vUndefined, vStr "A", vStr "d", vStr "Banana", vNum (-5), vStr "X"⟩).2 "p1"
      = some ⟨vStr "p1", vStr "A", vStr "d", vStr "Banana", vNum (-5), vStr "X"⟩ ∧
    validateProperty ⟨vStr "p1", vStr "A", vStr "d", vStr "Banana", vNum (-5), vStr "X"⟩
      = some "Invalid PropertyType (Must be \x27Rent\x27 or \x27Sale\x27)" := by
  refine ⟨rfl, rfl, rfl⟩

end RealEstate
